import Mathlib

set_option maxHeartbeats 1000000

noncomputable section

/-!
Shallow embedding of the V-Engine linear-algebra and camera core
(src/algebra.hpp, src/Camera.cpp together with the Camera.hpp header).
C++ `float` values are idealized as real numbers; `std::sqrt`, `std::sin`,
`std::cos`, `std::tan`, `std::acos` become the corresponding Mathlib real
functions, and the float literal `PI = 3.14159265359f` is idealized to the
exact real number pi. In-place mutating member functions are modelled as
functions returning the updated value. Each definition mirrors exactly one
source function.
-/

namespace alg

/-- Source constant `PI` (the float literal 3.14159265359f), idealized as the
exact real number pi. -/
def PI : ℝ := Real.pi

/-- Function `degrees_to_radians` from algebra.hpp: `degrees * PI / 180.0f`. -/
def degrees_to_radians (degrees : ℝ) : ℝ := degrees * PI / 180

/-- Struct `Vec3` from algebra.hpp: three float components x, y, z. -/
structure Vec3 where
  x : ℝ
  y : ℝ
  z : ℝ

/-- Vec3 `operator+`: componentwise sum. -/
def Vec3.add (a b : Vec3) : Vec3 := ⟨a.x + b.x, a.y + b.y, a.z + b.z⟩

/-- Vec3 `operator-`: componentwise difference. -/
def Vec3.sub (a b : Vec3) : Vec3 := ⟨a.x - b.x, a.y - b.y, a.z - b.z⟩

/-- Vec3 unary `operator-`: componentwise negation. -/
def Vec3.neg (a : Vec3) : Vec3 := ⟨-a.x, -a.y, -a.z⟩

/-- Vec3 `operator*(float)`: scale every component. -/
def Vec3.mulScalar (v : Vec3) (s : ℝ) : Vec3 := ⟨v.x * s, v.y * s, v.z * s⟩

/-- Vec3 `operator/(float)`: divide every component. -/
def Vec3.divScalar (v : Vec3) (s : ℝ) : Vec3 := ⟨v.x / s, v.y / s, v.z / s⟩

/-- Vec3 `magnitude()`: `std::sqrt(x*x + y*y + z*z)`. -/
def Vec3.magnitude (v : Vec3) : ℝ :=
  Real.sqrt (v.x * v.x + v.y * v.y + v.z * v.z)

/-- Vec3 `magnitude_squared()`. -/
def Vec3.magnitude_squared (v : Vec3) : ℝ := v.x * v.x + v.y * v.y + v.z * v.z

/-- Vec3 in-place `normalize()`: divides by the magnitude when it is positive,
otherwise leaves the vector unchanged.  Modelled as a function returning the
updated vector. -/
def Vec3.normalize (v : Vec3) : Vec3 :=
  if v.magnitude > 0 then v.divScalar v.magnitude else v

/-- Vec3 `normalized()`: returns the scaled copy when the magnitude is
positive, otherwise returns `Vec3(0,0,0)`. -/
def Vec3.normalized (v : Vec3) : Vec3 :=
  if v.magnitude > 0 then v.divScalar v.magnitude else ⟨0, 0, 0⟩

/-- Free function `dot` on Vec3 from algebra.hpp. -/
def dot (a b : Vec3) : ℝ := a.x * b.x + a.y * b.y + a.z * b.z

/-- Free function `cross` on Vec3 from algebra.hpp (right-hand rule). -/
def cross (a b : Vec3) : Vec3 :=
  ⟨a.y * b.z - a.z * b.y, a.z * b.x - a.x * b.z, a.x * b.y - a.y * b.x⟩

/-- Struct `Mat4` from algebra.hpp: sixteen floats in column-major order,
entry at column c, row r stored in field `m(c*4+r)`. -/
structure Mat4 where
  m0 : ℝ
  m1 : ℝ
  m2 : ℝ
  m3 : ℝ
  m4 : ℝ
  m5 : ℝ
  m6 : ℝ
  m7 : ℝ
  m8 : ℝ
  m9 : ℝ
  m10 : ℝ
  m11 : ℝ
  m12 : ℝ
  m13 : ℝ
  m14 : ℝ
  m15 : ℝ

/-- The `Mat4()` default constructor: the identity matrix. -/
def Mat4.identity : Mat4 := ⟨1, 0, 0, 0, 0, 1, 0, 0, 0, 0, 1, 0, 0, 0, 0, 1⟩

/-- `Mat4::lookAt(eye, target, up)` from algebra.hpp: z-axis is
`(eye - target).normalized()`, x-axis is `cross(up, z_axis).normalized()`,
y-axis is `cross(z_axis, x_axis)` (not re-normalized); the axes fill rows 0-2
of columns 0-2 and column 3 holds the negated dot products with `eye`. -/
def Mat4.lookAt (eye target up : Vec3) : Mat4 :=
  let z_axis := (eye.sub target).normalized
  let x_axis := (cross up z_axis).normalized
  let y_axis := cross z_axis x_axis
  ⟨x_axis.x, x_axis.y, x_axis.z, 0,
   y_axis.x, y_axis.y, y_axis.z, 0,
   z_axis.x, z_axis.y, z_axis.z, 0,
   -(dot x_axis eye), -(dot y_axis eye), -(dot z_axis eye), 1⟩

/-- `Mat4::create_perspective(fov_rad, aspect_ratio, near_plane, far_plane)`
from algebra.hpp.  The C++ body begins with `Mat4 mat{};` — value
initialization of a class with a user-provided default constructor calls that
constructor, so `mat` starts as the IDENTITY matrix (despite the adjacent
comment saying "Zero initialize"); the five projection entries are then
overwritten, leaving every other entry at its identity value (in particular
the bottom-right entry m15 stays 1). -/
def Mat4.create_perspective (fov_rad aspect near_plane far_plane : ℝ) : Mat4 :=
  let tan_half_fov := Real.tan (fov_rad / 2)
  { Mat4.identity with
      m0 := 1 / (aspect * tan_half_fov)
      m5 := 1 / tan_half_fov
      m10 := -(far_plane + near_plane) / (far_plane - near_plane)
      m11 := -1
      m14 := -(2 * far_plane * near_plane) / (far_plane - near_plane) }

/-- Free `operator*(Mat4, Vec3)` from algebra.hpp: transforms a point with
implicit w = 1, returning only (x, y, z). -/
def Mat4.mulVec (m : Mat4) (v : Vec3) : Vec3 :=
  ⟨m.m0 * v.x + m.m4 * v.y + m.m8 * v.z + m.m12,
   m.m1 * v.x + m.m5 * v.y + m.m9 * v.z + m.m13,
   m.m2 * v.x + m.m6 * v.y + m.m10 * v.z + m.m14⟩

/-- Homogeneous 4-component point, needed to state clip-space properties. -/
structure Vec4 where
  x : ℝ
  y : ℝ
  z : ℝ
  w : ℝ

/-- Modelled from the spec: the full homogeneous matrix-times-vector product
(all four rows of the column-major matrix applied to a 4-component point).
The source's `operator*(Mat4, Vec3)` intentionally omits the fourth row and
the perspective divide ("callers needing true perspective-correct points must
divide by the omitted w themselves"), so the clip-space w needed to state the
perspective-divide property is not computed anywhere under src/. -/
def Mat4.mulVec4 (m : Mat4) (v : Vec4) : Vec4 :=
  ⟨m.m0 * v.x + m.m4 * v.y + m.m8 * v.z + m.m12 * v.w,
   m.m1 * v.x + m.m5 * v.y + m.m9 * v.z + m.m13 * v.w,
   m.m2 * v.x + m.m6 * v.y + m.m10 * v.z + m.m14 * v.w,
   m.m3 * v.x + m.m7 * v.y + m.m11 * v.z + m.m15 * v.w⟩

/-- Struct `Quat` from algebra.hpp: four float components w, x, y, z. -/
structure Quat where
  w : ℝ
  x : ℝ
  y : ℝ
  z : ℝ

/-- Quat `operator+`: componentwise sum. -/
def Quat.add (a b : Quat) : Quat := ⟨a.w + b.w, a.x + b.x, a.y + b.y, a.z + b.z⟩

/-- Quat `operator-`: componentwise difference. -/
def Quat.sub (a b : Quat) : Quat := ⟨a.w - b.w, a.x - b.x, a.y - b.y, a.z - b.z⟩

/-- Quat unary `operator-`: componentwise negation. -/
def Quat.neg (a : Quat) : Quat := ⟨-a.w, -a.x, -a.y, -a.z⟩

/-- Quat `operator*(float)`: scale every component. -/
def Quat.mulScalar (q : Quat) (s : ℝ) : Quat := ⟨q.w * s, q.x * s, q.y * s, q.z * s⟩

/-- Quat `magnitude()`: `std::sqrt(w*w + x*x + y*y + z*z)`. -/
def Quat.magnitude (q : Quat) : ℝ :=
  Real.sqrt (q.w * q.w + q.x * q.x + q.y * q.y + q.z * q.z)

/-- Quat in-place `normalize()`: scales by `1/magnitude` only when the
magnitude exceeds the epsilon 0.0001f, otherwise leaves the quaternion
unchanged.  Modelled as a function returning the updated quaternion. -/
def Quat.normalize (q : Quat) : Quat :=
  if q.magnitude > 0.0001 then q.mulScalar (1 / q.magnitude) else q

/-- Quat `normalized()`: copies the quaternion and normalizes the copy. -/
def Quat.normalized (q : Quat) : Quat := q.normalize

/-- Quat `conjugate()`: negates only the vector part. -/
def Quat.conjugate (q : Quat) : Quat := ⟨q.w, -q.x, -q.y, -q.z⟩

/-- Quat `inverse()`: `conjugate().normalized()`. -/
def Quat.inverse (q : Quat) : Quat := q.conjugate.normalized

/-- Free `operator*(Quat, Quat)` from algebra.hpp: the Hamilton product. -/
def Quat.hmul (q1 q2 : Quat) : Quat :=
  ⟨q1.w * q2.w - q1.x * q2.x - q1.y * q2.y - q1.z * q2.z,
   q1.w * q2.x + q1.x * q2.w + q1.y * q2.z - q1.z * q2.y,
   q1.w * q2.y - q1.x * q2.z + q1.y * q2.w + q1.z * q2.x,
   q1.w * q2.z + q1.x * q2.y - q1.y * q2.x + q1.z * q2.w⟩

/-- The 4-component dot product computed in the first line of `slerp`. -/
def quat_dot (q0 q1 : Quat) : ℝ :=
  q0.w * q1.w + q0.x * q1.x + q0.y * q1.y + q0.z * q1.z

/-- Free function `slerp(q0, q1, t)` from algebra.hpp: shortest-path
correction by negating q1 when the dot product is negative, linear
interpolation plus re-normalization when the corrected dot product exceeds
0.9995f, and the closed-form sin-weighted blend otherwise. -/
def slerp (q0 q1 : Quat) (t : ℝ) : Quat :=
  let dp0 := quat_dot q0 q1
  let q1c := if dp0 < 0 then q1.neg else q1
  let dp := if dp0 < 0 then -dp0 else dp0
  if dp > 0.9995 then
    (q0.add ((q1c.sub q0).mulScalar t)).normalize
  else
    let theta_0 := Real.arccos dp
    let theta := theta_0 * t
    let sin_theta := Real.sin theta
    let sin_theta_0 := Real.sin theta_0
    let s0 := Real.cos theta - dp * sin_theta / sin_theta_0
    let s1 := sin_theta / sin_theta_0
    (q0.mulScalar s0).add (q1c.mulScalar s1)

/-- Transcription of the claimed slerp algorithm, written from the spec's
wording for comparison with the source definition `slerp`: negate one operand
and flip the dot when the dot is negative; lerp plus re-normalization above
the 0.9995 threshold; otherwise the closed form with theta = t * acos(dot),
s0 = cos(theta) - dot * sin(theta) / sin(theta_0), s1 = sin(theta) /
sin(theta_0). -/
def slerp_spec (q0 q1 : Quat) (t : ℝ) : Quat :=
  let dp0 := quat_dot q0 q1
  let q1c := if dp0 < 0 then q1.neg else q1
  let dp := if dp0 < 0 then -dp0 else dp0
  if dp > 0.9995 then
    (q0.add ((q1c.sub q0).mulScalar t)).normalize
  else
    let theta := t * Real.arccos dp
    let s0 := Real.cos theta - dp * Real.sin theta / Real.sin (Real.arccos dp)
    let s1 := Real.sin theta / Real.sin (Real.arccos dp)
    (q0.mulScalar s0).add (q1c.mulScalar s1)

/-- Transcription of the claimed lookAt construction, written from the spec's
wording for comparison with the source definition `Mat4.lookAt`. -/
def lookAt_spec (eye target up : Vec3) : Mat4 :=
  let z_axis := (eye.sub target).normalized
  let x_axis := (cross up z_axis).normalized
  let y_axis := cross z_axis x_axis
  ⟨x_axis.x, x_axis.y, x_axis.z, 0,
   y_axis.x, y_axis.y, y_axis.z, 0,
   z_axis.x, z_axis.y, z_axis.z, 0,
   -(dot x_axis eye), -(dot y_axis eye), -(dot z_axis eye), 1⟩

end alg

/-- Enum `Camera_Movement` from Camera.hpp. -/
inductive Camera_Movement where
  | FORWARD
  | BACKWARD
  | LEFT
  | RIGHT
  deriving DecidableEq

/-- Default camera constant `YAW` from Camera.hpp. -/
def YAW : ℝ := -90

/-- Default camera constant `PITCH` from Camera.hpp. -/
def PITCH : ℝ := 0

/-- Default camera constant `SPEED` from Camera.hpp. -/
def SPEED : ℝ := 2.5

/-- Default camera constant `SENSITIVITY` from Camera.hpp (0.08f). -/
def SENSITIVITY : ℝ := 0.08

/-- Default camera constant `ZOOM` from Camera.hpp. -/
def ZOOM : ℝ := 45

/-- Class `Camera` from Camera.hpp: position, derived basis vectors, Euler
angles and the three scalar options. -/
structure Camera where
  Position : alg.Vec3
  Front : alg.Vec3
  Up : alg.Vec3
  Right : alg.Vec3
  WorldUp : alg.Vec3
  Yaw : ℝ
  Pitch : ℝ
  MovementSpeed : ℝ
  MouseSensitivity : ℝ
  Zoom : ℝ

/-- `Camera::updateCameraVectors()` from Camera.cpp: recompute Front from
yaw/pitch, then Right and Up by normalized cross products. -/
def Camera.updateCameraVectors (c : Camera) : Camera :=
  let front : alg.Vec3 :=
    ⟨Real.cos (alg.degrees_to_radians c.Yaw) * Real.cos (alg.degrees_to_radians c.Pitch),
     Real.sin (alg.degrees_to_radians c.Pitch),
     Real.sin (alg.degrees_to_radians c.Yaw) * Real.cos (alg.degrees_to_radians c.Pitch)⟩
  let newFront := front.normalized
  let newRight := (alg.cross newFront c.WorldUp).normalized
  let newUp := (alg.cross newRight newFront).normalized
  { c with Front := newFront, Right := newRight, Up := newUp }

/-- The `Camera::Camera(position, up, yaw, pitch)` constructor from
Camera.cpp: stores position, world-up, yaw and pitch verbatim, initializes
Front to (0,0,-1) and the options to the header defaults (Up and Right are
the default-constructed zero vectors), then calls `updateCameraVectors()`. -/
def Camera.create (position up : alg.Vec3) (yaw pitch : ℝ) : Camera :=
  Camera.updateCameraVectors
    { Position := position, Front := ⟨0, 0, -1⟩, Up := ⟨0, 0, 0⟩, Right := ⟨0, 0, 0⟩,
      WorldUp := up, Yaw := yaw, Pitch := pitch,
      MovementSpeed := SPEED, MouseSensitivity := SENSITIVITY, Zoom := ZOOM }

/-- `Camera::processKeyboard(direction, deltaTime)` from Camera.cpp: moves
the position along Front or Right scaled by `MovementSpeed * deltaTime`,
testing the four directions in sequence. -/
def Camera.processKeyboard (c : Camera) (direction : Camera_Movement) (deltaTime : ℝ) : Camera :=
  let velocity := c.MovementSpeed * deltaTime
  let pos0 := c.Position
  let pos1 := if direction = Camera_Movement.FORWARD then pos0.add (c.Front.mulScalar velocity) else pos0
  let pos2 := if direction = Camera_Movement.BACKWARD then pos1.sub (c.Front.mulScalar velocity) else pos1
  let pos3 := if direction = Camera_Movement.LEFT then pos2.sub (c.Right.mulScalar velocity) else pos2
  let pos4 := if direction = Camera_Movement.RIGHT then pos3.add (c.Right.mulScalar velocity) else pos3
  { c with Position := pos4 }

/-- `Camera::processMouseMovement(xoffset, yoffset, constrainPitch)` from
Camera.cpp: scales both deltas by MouseSensitivity, adds them to Yaw and
Pitch, clamps Pitch to [-89, 89] when constrainPitch is set (first the upper
bound, then the lower), and recomputes the basis vectors. -/
def Camera.processMouseMovement (c : Camera) (xoffset yoffset : ℝ)
    (constrainPitch : Bool) : Camera :=
  let xo := xoffset * c.MouseSensitivity
  let yo := yoffset * c.MouseSensitivity
  let yaw := c.Yaw + xo
  let pitch0 := c.Pitch + yo
  let pitch :=
    if constrainPitch then
      let pitch1 := if pitch0 > 89 then (89 : ℝ) else pitch0
      if pitch1 < -89 then (-89 : ℝ) else pitch1
    else pitch0
  Camera.updateCameraVectors { c with Yaw := yaw, Pitch := pitch }

/-- `Camera::processMouseScroll(yoffset)` from Camera.cpp: subtracts the
scroll delta from Zoom and clamps the result to [1, 45] (first the lower
bound, then the upper). -/
def Camera.processMouseScroll (c : Camera) (yoffset : ℝ) : Camera :=
  let z0 := c.Zoom - yoffset
  let z1 := if z0 < 1 then (1 : ℝ) else z0
  let z2 := if z1 > 45 then (45 : ℝ) else z1
  { c with Zoom := z2 }

/-- `Camera::getViewMatrix()` from Camera.cpp. -/
def Camera.getViewMatrix (c : Camera) : alg.Mat4 :=
  alg.Mat4.lookAt c.Position (c.Position.add c.Front) c.Up

/-! Helper lemmas about the embedded operations. -/

namespace alg

lemma Vec3.magnitude_nonneg (v : Vec3) : 0 ≤ v.magnitude := Real.sqrt_nonneg _

lemma Vec3.mul_self_magnitude (v : Vec3) :
    v.magnitude * v.magnitude = v.x * v.x + v.y * v.y + v.z * v.z :=
  Real.mul_self_sqrt
    (add_nonneg (add_nonneg (mul_self_nonneg _) (mul_self_nonneg _)) (mul_self_nonneg _))

lemma Vec3.magnitude_divScalar (v : Vec3) (s : ℝ) (hs : 0 < s) :
    (v.divScalar s).magnitude = v.magnitude / s := by
  simp only [Vec3.divScalar, Vec3.magnitude]
  rw [show v.x / s * (v.x / s) + v.y / s * (v.y / s) + v.z / s * (v.z / s)
        = (v.x * v.x + v.y * v.y + v.z * v.z) / (s * s) by ring,
    Real.sqrt_div
      (add_nonneg (add_nonneg (mul_self_nonneg _) (mul_self_nonneg _)) (mul_self_nonneg _)),
    Real.sqrt_mul_self hs.le]

lemma Vec3.normalized_magnitude_of_ne_zero (v : Vec3) (h : v.magnitude ≠ 0) :
    v.normalized.magnitude = 1 := by
  have hpos : 0 < v.magnitude := lt_of_le_of_ne v.magnitude_nonneg (Ne.symm h)
  simp only [Vec3.normalized, if_pos hpos]
  rw [Vec3.magnitude_divScalar v _ hpos, div_self h]

lemma Vec3.normalized_of_magnitude_one (v : Vec3) (h : v.magnitude = 1) :
    v.normalized = v := by
  obtain ⟨x, y, z⟩ := v
  simp only [Vec3.normalized, h, Vec3.divScalar]
  norm_num

lemma Quat.magnitude_nonneg_quat (q : Quat) : 0 ≤ q.magnitude := Real.sqrt_nonneg _

lemma Quat.mul_self_magnitude_quat (q : Quat) :
    q.magnitude * q.magnitude = q.w * q.w + q.x * q.x + q.y * q.y + q.z * q.z :=
  Real.mul_self_sqrt
    (add_nonneg (add_nonneg (add_nonneg (mul_self_nonneg _) (mul_self_nonneg _))
      (mul_self_nonneg _)) (mul_self_nonneg _))

lemma Quat.sum_sq_eq_one (q : Quat) (h : q.magnitude = 1) :
    q.w * q.w + q.x * q.x + q.y * q.y + q.z * q.z = 1 := by
  have := q.mul_self_magnitude_quat
  rw [h] at this
  linarith

lemma Quat.magnitude_mulScalar (q : Quat) (s : ℝ) (hs : 0 ≤ s) :
    (q.mulScalar s).magnitude = q.magnitude * s := by
  simp only [Quat.mulScalar, Quat.magnitude]
  rw [show q.w * s * (q.w * s) + q.x * s * (q.x * s) + q.y * s * (q.y * s) + q.z * s * (q.z * s)
        = (q.w * q.w + q.x * q.x + q.y * q.y + q.z * q.z) * (s * s) by ring,
    Real.sqrt_mul
      (add_nonneg (add_nonneg (add_nonneg (mul_self_nonneg _) (mul_self_nonneg _))
        (mul_self_nonneg _)) (mul_self_nonneg _)),
    Real.sqrt_mul_self hs]

lemma Quat.normalize_magnitude_of_gt (q : Quat) (h : 0.0001 < q.magnitude) :
    q.normalize.magnitude = 1 := by
  have hpos : 0 < q.magnitude := lt_trans (by norm_num) h
  simp only [Quat.normalize, if_pos h]
  rw [Quat.magnitude_mulScalar q _ (by positivity), mul_one_div, div_self hpos.ne']

lemma Quat.normalize_of_magnitude_one (q : Quat) (h : q.magnitude = 1) :
    q.normalize = q := by
  obtain ⟨w, x, y, z⟩ := q
  simp only [Quat.normalize, h, Quat.mulScalar]
  norm_num

lemma Quat.lerp_self_add (a b : Quat) :
    a.add ((b.sub a).mulScalar 0) = a := by
  obtain ⟨w, x, y, z⟩ := a
  simp [Quat.add, Quat.sub, Quat.mulScalar]

lemma Quat.lerp_one_add (a b : Quat) : a.add ((b.sub a).mulScalar 1) = b := by
  obtain ⟨aw, ax, ay, az⟩ := a
  obtain ⟨bw, bx, by', bz⟩ := b
  simp only [Quat.add, Quat.sub, Quat.mulScalar, Quat.mk.injEq]
  refine ⟨by ring, by ring, by ring, by ring⟩

lemma Quat.lerp_same_add (a : Quat) (t : ℝ) : a.add ((a.sub a).mulScalar t) = a := by
  obtain ⟨w, x, y, z⟩ := a
  simp only [Quat.add, Quat.sub, Quat.mulScalar, Quat.mk.injEq]
  refine ⟨by ring, by ring, by ring, by ring⟩

end alg

/-! Concrete magnitude and trigonometric evaluations used by the scenario
claims. -/

lemma mag_vec_005 : (⟨0, 0, 5⟩ : alg.Vec3).magnitude = 5 := by
  simp only [alg.Vec3.magnitude]
  rw [show (0 * 0 + 0 * 0 + 5 * 5 : ℝ) = 5 ^ 2 by norm_num, Real.sqrt_sq (by norm_num)]

lemma mag_vec_001n : (⟨0, 0, -1⟩ : alg.Vec3).magnitude = 1 := by
  simp only [alg.Vec3.magnitude]
  rw [show (0 * 0 + 0 * 0 + -1 * -1 : ℝ) = 1 by norm_num, Real.sqrt_one]

lemma mag_vec_100 : (⟨1, 0, 0⟩ : alg.Vec3).magnitude = 1 := by
  simp only [alg.Vec3.magnitude]
  rw [show (1 * 1 + 0 * 0 + 0 * 0 : ℝ) = 1 by norm_num, Real.sqrt_one]

lemma mag_vec_010 : (⟨0, 1, 0⟩ : alg.Vec3).magnitude = 1 := by
  simp only [alg.Vec3.magnitude]
  rw [show (0 * 0 + 1 * 1 + 0 * 0 : ℝ) = 1 by norm_num, Real.sqrt_one]

lemma mag_vec_001 : (⟨0, 0, 1⟩ : alg.Vec3).magnitude = 1 := by
  simp only [alg.Vec3.magnitude]
  rw [show (0 * 0 + 0 * 0 + 1 * 1 : ℝ) = 1 by norm_num, Real.sqrt_one]

lemma mag_vec_000 : (⟨0, 0, 0⟩ : alg.Vec3).magnitude = 0 := by
  simp only [alg.Vec3.magnitude]
  rw [show (0 * 0 + 0 * 0 + 0 * 0 : ℝ) = 0 by norm_num, Real.sqrt_zero]

lemma mag_vec_304 : (⟨3, 0, 4⟩ : alg.Vec3).magnitude = 5 := by
  simp only [alg.Vec3.magnitude]
  rw [show (3 * 3 + 0 * 0 + 4 * 4 : ℝ) = 5 ^ 2 by norm_num, Real.sqrt_sq (by norm_num)]

lemma normalized_vec_005 : (⟨0, 0, 5⟩ : alg.Vec3).normalized = ⟨0, 0, 1⟩ := by
  simp only [alg.Vec3.normalized, mag_vec_005, alg.Vec3.divScalar]
  norm_num

lemma normalized_vec_001n : (⟨0, 0, -1⟩ : alg.Vec3).normalized = ⟨0, 0, -1⟩ :=
  alg.Vec3.normalized_of_magnitude_one _ mag_vec_001n

lemma normalized_vec_100 : (⟨1, 0, 0⟩ : alg.Vec3).normalized = ⟨1, 0, 0⟩ :=
  alg.Vec3.normalized_of_magnitude_one _ mag_vec_100

lemma normalized_vec_010 : (⟨0, 1, 0⟩ : alg.Vec3).normalized = ⟨0, 1, 0⟩ :=
  alg.Vec3.normalized_of_magnitude_one _ mag_vec_010

lemma mag_quat_1000 : (⟨1, 0, 0, 0⟩ : alg.Quat).magnitude = 1 := by
  simp only [alg.Quat.magnitude]
  rw [show (1 * 1 + 0 * 0 + 0 * 0 + 0 * 0 : ℝ) = 1 by norm_num, Real.sqrt_one]

lemma mag_quat_n1000 : (⟨-1, 0, 0, 0⟩ : alg.Quat).magnitude = 1 := by
  simp only [alg.Quat.magnitude]
  rw [show (-1 * -1 + 0 * 0 + 0 * 0 + 0 * 0 : ℝ) = 1 by norm_num, Real.sqrt_one]

lemma mag_quat_0100 : (⟨0, 1, 0, 0⟩ : alg.Quat).magnitude = 1 := by
  simp only [alg.Quat.magnitude]
  rw [show (0 * 0 + 1 * 1 + 0 * 0 + 0 * 0 : ℝ) = 1 by norm_num, Real.sqrt_one]

lemma mag_quat_0000 : (⟨0, 0, 0, 0⟩ : alg.Quat).magnitude = 0 := by
  simp only [alg.Quat.magnitude]
  rw [show (0 * 0 + 0 * 0 + 0 * 0 + 0 * 0 : ℝ) = 0 by norm_num, Real.sqrt_zero]

lemma mag_quat_68 : (⟨0.6, 0.8, 0, 0⟩ : alg.Quat).magnitude = 1 := by
  simp only [alg.Quat.magnitude]
  rw [show (0.6 * 0.6 + 0.8 * 0.8 + 0 * 0 + 0 * 0 : ℝ) = 1 by norm_num, Real.sqrt_one]

lemma d2r_neg_ninety : alg.degrees_to_radians (-90) = -(Real.pi / 2) := by
  unfold alg.degrees_to_radians alg.PI
  ring

lemma d2r_zero : alg.degrees_to_radians 0 = 0 := by
  unfold alg.degrees_to_radians
  ring

lemma d2r_ninety : alg.degrees_to_radians 90 = Real.pi / 2 := by
  unfold alg.degrees_to_radians alg.PI
  ring

lemma cos_d2r_neg_ninety : Real.cos (alg.degrees_to_radians (-90)) = 0 := by
  rw [d2r_neg_ninety, Real.cos_neg, Real.cos_pi_div_two]

lemma sin_d2r_neg_ninety : Real.sin (alg.degrees_to_radians (-90)) = -1 := by
  rw [d2r_neg_ninety, Real.sin_neg, Real.sin_pi_div_two]

lemma cos_d2r_zero : Real.cos (alg.degrees_to_radians 0) = 1 := by
  rw [d2r_zero, Real.cos_zero]

lemma sin_d2r_zero : Real.sin (alg.degrees_to_radians 0) = 0 := by
  rw [d2r_zero, Real.sin_zero]

lemma tan_half_d2r_ninety : Real.tan (alg.degrees_to_radians 90 / 2) = 1 := by
  rw [d2r_ninety, show (Real.pi / 2 / 2 : ℝ) = Real.pi / 4 by ring, Real.tan_pi_div_four]

/-! Projection lemmas: `updateCameraVectors` rewrites only the three basis
vectors. -/

lemma updateCameraVectors_Position (c : Camera) :
    c.updateCameraVectors.Position = c.Position := rfl

lemma updateCameraVectors_WorldUp (c : Camera) :
    c.updateCameraVectors.WorldUp = c.WorldUp := rfl

lemma updateCameraVectors_Yaw (c : Camera) : c.updateCameraVectors.Yaw = c.Yaw := rfl

lemma updateCameraVectors_Pitch (c : Camera) : c.updateCameraVectors.Pitch = c.Pitch := rfl

lemma updateCameraVectors_MovementSpeed (c : Camera) :
    c.updateCameraVectors.MovementSpeed = c.MovementSpeed := rfl

lemma updateCameraVectors_MouseSensitivity (c : Camera) :
    c.updateCameraVectors.MouseSensitivity = c.MouseSensitivity := rfl

lemma updateCameraVectors_Zoom (c : Camera) : c.updateCameraVectors.Zoom = c.Zoom := rfl

/-- Full evaluation of the default camera of the end-to-end scenario:
position (0,0,5), world-up (0,1,0), yaw -90, pitch 0. -/
lemma create_default_eval :
    Camera.create ⟨0, 0, 5⟩ ⟨0, 1, 0⟩ YAW PITCH =
      { Position := ⟨0, 0, 5⟩, Front := ⟨0, 0, -1⟩, Up := ⟨0, 1, 0⟩, Right := ⟨1, 0, 0⟩,
        WorldUp := ⟨0, 1, 0⟩, Yaw := -90, Pitch := 0,
        MovementSpeed := SPEED, MouseSensitivity := SENSITIVITY, Zoom := ZOOM } := by
  unfold Camera.create Camera.updateCameraVectors
  norm_num [YAW, PITCH, cos_d2r_neg_ninety, sin_d2r_neg_ninety, cos_d2r_zero, sin_d2r_zero,
    alg.cross, normalized_vec_001n, normalized_vec_100, normalized_vec_010]

/-! Claim theorems. -/

/-- C1 (counterexample): in the end-to-end camera scenario the look update
with dx = 0 and dy = 1000 does NOT leave the pitch clamped to 89 degrees as
the claim states: the default mouse sensitivity is 0.08, so the scaled delta
is 80 and the pitch ends at 80 degrees, below the clamp. -/
theorem camera_scenario_counterexample :
    ((Camera.create ⟨0, 0, 5⟩ ⟨0, 1, 0⟩ YAW PITCH).processMouseMovement 0 1000 true).Pitch = 80 ∧
    (80 : ℝ) ≠ 89 := by
  constructor
  · rw [create_default_eval]
    unfold Camera.processMouseMovement
    rw [updateCameraVectors_Pitch]
    norm_num [SENSITIVITY]
  · norm_num

/-- C1 (amended): a camera constructed at position (0,0,5) with default yaw
-90 degrees and pitch 0 has front exactly (0,0,-1); the forward-movement
update with dt = 1.0 and the default speed 2.5 yields position (0,0,2.5);
the look update scales the deltas by the default mouse sensitivity 0.08
before adding them to yaw/pitch, so dx = 0, dy = 1000 yields pitch 80
(within the bound, no clamping occurs), while a delta whose scaled value
exceeds the bound, such as dy = 2000, leaves the pitch clamped to 89 degrees
(not 90 or beyond). -/
theorem camera_scenario_amended :
    (Camera.create ⟨0, 0, 5⟩ ⟨0, 1, 0⟩ YAW PITCH).Front = ⟨0, 0, -1⟩ ∧
    ((Camera.create ⟨0, 0, 5⟩ ⟨0, 1, 0⟩ YAW PITCH).processKeyboard
        Camera_Movement.FORWARD 1).Position = ⟨0, 0, 2.5⟩ ∧
    ((Camera.create ⟨0, 0, 5⟩ ⟨0, 1, 0⟩ YAW PITCH).processMouseMovement 0 1000 true).Pitch = 80 ∧
    ((Camera.create ⟨0, 0, 5⟩ ⟨0, 1, 0⟩ YAW PITCH).processMouseMovement 0 2000 true).Pitch = 89 := by
  rw [create_default_eval]
  refine ⟨rfl, ?_, ?_, ?_⟩
  · unfold Camera.processKeyboard
    norm_num [SPEED, alg.Vec3.add, alg.Vec3.mulScalar,
      show Camera_Movement.FORWARD ≠ Camera_Movement.BACKWARD from by decide,
      show Camera_Movement.FORWARD ≠ Camera_Movement.LEFT from by decide,
      show Camera_Movement.FORWARD ≠ Camera_Movement.RIGHT from by decide]
  · unfold Camera.processMouseMovement
    rw [updateCameraVectors_Pitch]
    norm_num [SENSITIVITY]
  · unfold Camera.processMouseMovement
    rw [updateCameraVectors_Pitch]
    norm_num [SENSITIVITY]

/-- C9: the scroll update changes only the Zoom field, and the resulting Zoom
always lies in [1, 45], for every camera state and every scroll delta. -/
theorem scroll_only_zoom_clamped (c : Camera) (dy : ℝ) :
    (c.processMouseScroll dy).Position = c.Position ∧
    (c.processMouseScroll dy).Front = c.Front ∧
    (c.processMouseScroll dy).Up = c.Up ∧
    (c.processMouseScroll dy).Right = c.Right ∧
    (c.processMouseScroll dy).WorldUp = c.WorldUp ∧
    (c.processMouseScroll dy).Yaw = c.Yaw ∧
    (c.processMouseScroll dy).Pitch = c.Pitch ∧
    (c.processMouseScroll dy).MovementSpeed = c.MovementSpeed ∧
    (c.processMouseScroll dy).MouseSensitivity = c.MouseSensitivity ∧
    1 ≤ (c.processMouseScroll dy).Zoom ∧ (c.processMouseScroll dy).Zoom ≤ 45 := by
  refine ⟨rfl, rfl, rfl, rfl, rfl, rfl, rfl, rfl, rfl, ?_, ?_⟩ <;>
  · simp only [Camera.processMouseScroll]
    split_ifs <;> simp_all

/-- C10: the camera constructor stores the caller-supplied pitch verbatim
(witnessed concretely by a camera holding pitch 200, outside [-89, 89]),
while any look update with the pitch constraint enabled leaves Pitch inside
[-89, 89] whatever the prior state. -/
theorem pitch_constraint_only_in_look :
    (∀ (position up : alg.Vec3) (yaw pitch : ℝ),
      (Camera.create position up yaw pitch).Pitch = pitch) ∧
    (Camera.create ⟨0, 0, 0⟩ ⟨0, 1, 0⟩ YAW 200).Pitch = 200 ∧
    (∀ (c : Camera) (dx dy : ℝ),
      -89 ≤ (c.processMouseMovement dx dy true).Pitch ∧
      (c.processMouseMovement dx dy true).Pitch ≤ 89) := by
  refine ⟨fun position up yaw pitch => rfl, rfl, fun c dx dy => ?_⟩
  unfold Camera.processMouseMovement
  rw [updateCameraVectors_Pitch]
  dsimp only
  constructor <;> (split_ifs <;> try linarith) <;> simp_all

/-- Evaluation of lookAt at the concrete scenario eye (0,0,5), target origin,
up (0,1,0). -/
lemma lookAt_eval :
    alg.Mat4.lookAt ⟨0, 0, 5⟩ ⟨0, 0, 0⟩ ⟨0, 1, 0⟩ =
      ⟨1, 0, 0, 0, 0, 1, 0, 0, 0, 0, 1, 0, 0, 0, -5, 1⟩ := by
  unfold alg.Mat4.lookAt
  norm_num [alg.Vec3.sub, alg.cross, alg.dot, normalized_vec_005, normalized_vec_100,
    normalized_vec_010]

/-- C3: lookAt builds its matrix exactly as the spec describes (z-axis the
normalized eye minus target, x-axis the normalized cross of up with the
z-axis, y-axis the un-normalized cross of z-axis with x-axis, axes in rows
0-2 of columns 0-2, negated dot products with eye in column 3), and on the
concrete input eye (0,0,5), target (0,0,0), up (0,1,0) the three basis
columns are mutually orthogonal unit vectors and the matrix maps the eye
point to the origin. -/
theorem lookAt_structure_and_orthonormal :
    (∀ (eye target up : alg.Vec3),
      alg.Mat4.lookAt eye target up = alg.lookAt_spec eye target up) ∧
    (alg.dot ⟨(alg.Mat4.lookAt ⟨0, 0, 5⟩ ⟨0, 0, 0⟩ ⟨0, 1, 0⟩).m0,
              (alg.Mat4.lookAt ⟨0, 0, 5⟩ ⟨0, 0, 0⟩ ⟨0, 1, 0⟩).m1,
              (alg.Mat4.lookAt ⟨0, 0, 5⟩ ⟨0, 0, 0⟩ ⟨0, 1, 0⟩).m2⟩
             ⟨(alg.Mat4.lookAt ⟨0, 0, 5⟩ ⟨0, 0, 0⟩ ⟨0, 1, 0⟩).m4,
              (alg.Mat4.lookAt ⟨0, 0, 5⟩ ⟨0, 0, 0⟩ ⟨0, 1, 0⟩).m5,
              (alg.Mat4.lookAt ⟨0, 0, 5⟩ ⟨0, 0, 0⟩ ⟨0, 1, 0⟩).m6⟩ = 0) ∧
    (alg.dot ⟨(alg.Mat4.lookAt ⟨0, 0, 5⟩ ⟨0, 0, 0⟩ ⟨0, 1, 0⟩).m0,
              (alg.Mat4.lookAt ⟨0, 0, 5⟩ ⟨0, 0, 0⟩ ⟨0, 1, 0⟩).m1,
              (alg.Mat4.lookAt ⟨0, 0, 5⟩ ⟨0, 0, 0⟩ ⟨0, 1, 0⟩).m2⟩
             ⟨(alg.Mat4.lookAt ⟨0, 0, 5⟩ ⟨0, 0, 0⟩ ⟨0, 1, 0⟩).m8,
              (alg.Mat4.lookAt ⟨0, 0, 5⟩ ⟨0, 0, 0⟩ ⟨0, 1, 0⟩).m9,
              (alg.Mat4.lookAt ⟨0, 0, 5⟩ ⟨0, 0, 0⟩ ⟨0, 1, 0⟩).m10⟩ = 0) ∧
    (alg.dot ⟨(alg.Mat4.lookAt ⟨0, 0, 5⟩ ⟨0, 0, 0⟩ ⟨0, 1, 0⟩).m4,
              (alg.Mat4.lookAt ⟨0, 0, 5⟩ ⟨0, 0, 0⟩ ⟨0, 1, 0⟩).m5,
              (alg.Mat4.lookAt ⟨0, 0, 5⟩ ⟨0, 0, 0⟩ ⟨0, 1, 0⟩).m6⟩
             ⟨(alg.Mat4.lookAt ⟨0, 0, 5⟩ ⟨0, 0, 0⟩ ⟨0, 1, 0⟩).m8,
              (alg.Mat4.lookAt ⟨0, 0, 5⟩ ⟨0, 0, 0⟩ ⟨0, 1, 0⟩).m9,
              (alg.Mat4.lookAt ⟨0, 0, 5⟩ ⟨0, 0, 0⟩ ⟨0, 1, 0⟩).m10⟩ = 0) ∧
    ((⟨(alg.Mat4.lookAt ⟨0, 0, 5⟩ ⟨0, 0, 0⟩ ⟨0, 1, 0⟩).m0,
       (alg.Mat4.lookAt ⟨0, 0, 5⟩ ⟨0, 0, 0⟩ ⟨0, 1, 0⟩).m1,
       (alg.Mat4.lookAt ⟨0, 0, 5⟩ ⟨0, 0, 0⟩ ⟨0, 1, 0⟩).m2⟩ : alg.Vec3).magnitude = 1) ∧
    ((⟨(alg.Mat4.lookAt ⟨0, 0, 5⟩ ⟨0, 0, 0⟩ ⟨0, 1, 0⟩).m4,
       (alg.Mat4.lookAt ⟨0, 0, 5⟩ ⟨0, 0, 0⟩ ⟨0, 1, 0⟩).m5,
       (alg.Mat4.lookAt ⟨0, 0, 5⟩ ⟨0, 0, 0⟩ ⟨0, 1, 0⟩).m6⟩ : alg.Vec3).magnitude = 1) ∧
    ((⟨(alg.Mat4.lookAt ⟨0, 0, 5⟩ ⟨0, 0, 0⟩ ⟨0, 1, 0⟩).m8,
       (alg.Mat4.lookAt ⟨0, 0, 5⟩ ⟨0, 0, 0⟩ ⟨0, 1, 0⟩).m9,
       (alg.Mat4.lookAt ⟨0, 0, 5⟩ ⟨0, 0, 0⟩ ⟨0, 1, 0⟩).m10⟩ : alg.Vec3).magnitude = 1) ∧
    (alg.Mat4.lookAt ⟨0, 0, 5⟩ ⟨0, 0, 0⟩ ⟨0, 1, 0⟩).mulVec ⟨0, 0, 5⟩ = ⟨0, 0, 0⟩ := by
  rw [lookAt_eval]
  refine ⟨fun eye target up => rfl, ?_, ?_, ?_, ?_, ?_, ?_, ?_⟩
  · norm_num [alg.dot]
  · norm_num [alg.dot]
  · norm_num [alg.dot]
  · exact mag_vec_100
  · exact mag_vec_010
  · exact mag_vec_001
  · norm_num [alg.Mat4.mulVec]

/-- Evaluation of create_perspective at fov 90 degrees (in radians), aspect
1, near 0.1, far 100.  Entries m1, m2, m3, m4, m6, m7, m8, m9, m12, m13 are
zero, the five projection entries hold their formulas — and m15 is 1, left
over from the identity default constructor. -/
lemma create_perspective_eval :
    alg.Mat4.create_perspective (alg.degrees_to_radians 90) 1 0.1 100 =
      ⟨1, 0, 0, 0, 0, 1, 0, 0, 0, 0, -(1001 / 999), -1, 0, 0, -(200 / 999), 1⟩ := by
  unfold alg.Mat4.create_perspective
  rw [tan_half_d2r_ninety]
  norm_num [alg.Mat4.identity]

/-- C4: the claim that the only nonzero entries of create_perspective are the
five projection entries is wrong on the code: `Mat4 mat{};` value-initializes
through the user-provided default constructor, so the matrix starts as the
identity and the bottom-right entry m[3][3] (m15) remains 1 instead of 0.
Consequently, for fov 90 degrees, aspect 1, near 0.1, far 100, the
near-plane center point (0,0,-0.1,1) has clip-space z/w equal to -1/11, not
approximately -1 (the far-plane center gives 100/101).  This contradicts the
code's own comment ("Zero initialize") and the header documentation, which
shows the matrix bottom row as [0 0 -1 0]. -/
theorem create_perspective_bottom_right_bug :
    (alg.Mat4.create_perspective (alg.degrees_to_radians 90) 1 0.1 100).m15 = 1 ∧
    ((alg.Mat4.create_perspective (alg.degrees_to_radians 90) 1 0.1 100).mulVec4
        ⟨0, 0, -0.1, 1⟩).z /
      ((alg.Mat4.create_perspective (alg.degrees_to_radians 90) 1 0.1 100).mulVec4
        ⟨0, 0, -0.1, 1⟩).w = -1 / 11 ∧
    ((alg.Mat4.create_perspective (alg.degrees_to_radians 90) 1 0.1 100).mulVec4
        ⟨0, 0, -100, 1⟩).z /
      ((alg.Mat4.create_perspective (alg.degrees_to_radians 90) 1 0.1 100).mulVec4
        ⟨0, 0, -100, 1⟩).w = 100 / 101 ∧
    (-1 / 11 : ℝ) ≠ -1 := by
  rw [create_perspective_eval]
  refine ⟨rfl, ?_, ?_, by norm_num⟩
  · norm_num [alg.Mat4.mulVec4]
  · norm_num [alg.Mat4.mulVec4]

/-- C5: when the magnitude of v is exactly zero, normalized() returns the
zero vector exactly and the in-place normalize() leaves the vector
unchanged; otherwise the normalized vector has magnitude exactly 1 (the
floating tolerance of the claim collapses to exactness over the idealized
reals). -/
theorem vec3_normalized_zero_guard (v : alg.Vec3) :
    (v.magnitude = 0 → v.normalized = ⟨0, 0, 0⟩ ∧ v.normalize = v) ∧
    (v.magnitude ≠ 0 → v.normalized.magnitude = 1) := by
  constructor
  · intro h
    have hng : ¬ v.magnitude > 0 := by rw [h]; exact lt_irrefl 0
    exact ⟨by simp only [alg.Vec3.normalized, if_neg hng],
           by simp only [alg.Vec3.normalize, if_neg hng]⟩
  · exact v.normalized_magnitude_of_ne_zero

/-- Witness for C5 at the zero vector and at (3,0,4). -/
theorem vec3_normalized_zero_guard_witness :
    ((⟨0, 0, 0⟩ : alg.Vec3).normalized = ⟨0, 0, 0⟩ ∧
      (⟨0, 0, 0⟩ : alg.Vec3).normalize = ⟨0, 0, 0⟩) ∧
    (⟨3, 0, 4⟩ : alg.Vec3).normalized.magnitude = 1 :=
  ⟨(vec3_normalized_zero_guard ⟨0, 0, 0⟩).1 mag_vec_000,
   (vec3_normalized_zero_guard ⟨3, 0, 4⟩).2 (by rw [mag_vec_304]; norm_num)⟩

/-- C7: for every unit quaternion q, the Hamilton product of q with its
inverse is exactly the identity quaternion; the inverse is the conjugate
(which negates only the vector part) normalized, and normalization of a
unit-magnitude conjugate is the identity scaling. -/
theorem unit_quat_mul_inverse (q : alg.Quat) (h : q.magnitude = 1) :
    q.hmul q.inverse = ⟨1, 0, 0, 0⟩ := by
  have hs : q.w * q.w + q.x * q.x + q.y * q.y + q.z * q.z = 1 := q.sum_sq_eq_one h
  have hcm : q.conjugate.magnitude = 1 := by
    simp only [alg.Quat.conjugate, alg.Quat.magnitude] at h ⊢
    rw [show (q.w * q.w + -q.x * -q.x + -q.y * -q.y + -q.z * -q.z : ℝ)
          = q.w * q.w + q.x * q.x + q.y * q.y + q.z * q.z by ring]
    exact h
  have hinv : q.inverse = q.conjugate := by
    unfold alg.Quat.inverse alg.Quat.normalized
    exact alg.Quat.normalize_of_magnitude_one _ hcm
  rw [hinv]
  simp only [alg.Quat.hmul, alg.Quat.conjugate, alg.Quat.mk.injEq]
  exact ⟨by linear_combination hs, by ring, by ring, by ring⟩

/-- Witness for C7 at the identity quaternion. -/
theorem unit_quat_mul_inverse_witness :
    (⟨1, 0, 0, 0⟩ : alg.Quat).magnitude = 1 ∧
    (⟨1, 0, 0, 0⟩ : alg.Quat).hmul (⟨1, 0, 0, 0⟩ : alg.Quat).inverse = ⟨1, 0, 0, 0⟩ :=
  ⟨mag_quat_1000, unit_quat_mul_inverse _ mag_quat_1000⟩

/-- C8: quaternion normalize skips the scaling (leaving all four components
unchanged) whenever the magnitude is at or below the epsilon 0.0001, scales
to unit magnitude whenever the magnitude exceeds the epsilon, and
normalized() returns exactly the copy that normalize() produces. -/
theorem quat_normalize_epsilon_guard (q : alg.Quat) :
    (q.magnitude ≤ 0.0001 → q.normalize = q) ∧
    (0.0001 < q.magnitude → q.normalize.magnitude = 1) ∧
    q.normalized = q.normalize := by
  refine ⟨fun h => ?_, fun h => q.normalize_magnitude_of_gt h, rfl⟩
  simp only [alg.Quat.normalize, if_neg (not_lt.mpr h)]

/-- Witness for C8 at the zero quaternion (below the epsilon) and at the
identity quaternion (above it). -/
theorem quat_normalize_epsilon_guard_witness :
    (⟨0, 0, 0, 0⟩ : alg.Quat).normalize = ⟨0, 0, 0, 0⟩ ∧
    (⟨1, 0, 0, 0⟩ : alg.Quat).normalize.magnitude = 1 :=
  ⟨(quat_normalize_epsilon_guard ⟨0, 0, 0, 0⟩).1 (by rw [mag_quat_0000]; norm_num),
   (quat_normalize_epsilon_guard ⟨1, 0, 0, 0⟩).2.1 (by rw [mag_quat_1000]; norm_num)⟩

/-- C6: slerp follows exactly the claimed algorithm: shortest-path negation
when the 4-component dot product is negative, linear interpolation plus
re-normalization when the corrected dot product exceeds 0.9995, and
otherwise the closed-form sin-weighted blend with theta = t * acos(dot),
s0 = cos(theta) - dot * sin(theta) / sin(theta_0), s1 = sin(theta) /
sin(theta_0). -/
theorem slerp_algorithm_refinement (q0 q1 : alg.Quat) (t : ℝ) :
    alg.slerp q0 q1 t = alg.slerp_spec q0 q1 t := by
  simp only [alg.slerp, alg.slerp_spec, mul_comm]

/-- C2 (counterexample): the claim fails at t = 1 when the two unit
quaternions have negative dot product: for q0 = (1,0,0,0) and
q1 = (-1,0,0,0) the shortest-path correction negates q1, so slerp(q0,q1,1)
is (1,0,0,0), whose w component differs from q1's by 2 — not approximately
q1 under any tolerance. -/
theorem slerp_endpoints_counterexample :
    (⟨1, 0, 0, 0⟩ : alg.Quat).magnitude = 1 ∧
    (⟨-1, 0, 0, 0⟩ : alg.Quat).magnitude = 1 ∧
    alg.slerp ⟨1, 0, 0, 0⟩ ⟨-1, 0, 0, 0⟩ 1 = ⟨1, 0, 0, 0⟩ ∧
    (alg.slerp ⟨1, 0, 0, 0⟩ ⟨-1, 0, 0, 0⟩ 1).w - (⟨-1, 0, 0, 0⟩ : alg.Quat).w = 2 := by
  have heval : alg.slerp ⟨1, 0, 0, 0⟩ ⟨-1, 0, 0, 0⟩ 1 = ⟨1, 0, 0, 0⟩ := by
    have h1 : alg.quat_dot ⟨1, 0, 0, 0⟩ ⟨-1, 0, 0, 0⟩ = -1 := by norm_num [alg.quat_dot]
    simp only [alg.slerp, h1]
    norm_num [alg.Quat.neg, alg.Quat.sub, alg.Quat.add, alg.Quat.mulScalar]
    exact alg.Quat.normalize_of_magnitude_one _ mag_quat_1000
  exact ⟨mag_quat_1000, mag_quat_n1000, heval, by rw [heval]; norm_num⟩

/-- C2 (amended): for unit quaternions, slerp(q0,q1,0) is exactly q0;
slerp(q0,q1,1) is exactly q1 whenever the 4-component dot product of q0 and
q1 is nonnegative (when it is negative the shortest-path correction makes
the result the negation of q1 instead); and slerp(q,q,0.5) is exactly q. -/
theorem slerp_endpoints_amended (q0 q1 q : alg.Quat)
    (h0 : q0.magnitude = 1) (h1 : q1.magnitude = 1) (hq : q.magnitude = 1) :
    alg.slerp q0 q1 0 = q0 ∧
    (0 ≤ alg.quat_dot q0 q1 → alg.slerp q0 q1 1 = q1) ∧
    alg.slerp q q 0.5 = q := by
  refine ⟨?_, fun hdot => ?_, ?_⟩
  · simp only [alg.slerp]
    by_cases hd : alg.quat_dot q0 q1 < 0
    · simp only [if_pos hd]
      by_cases ht : -alg.quat_dot q0 q1 > 0.9995
      · rw [if_pos ht, alg.Quat.lerp_self_add]
        exact alg.Quat.normalize_of_magnitude_one _ h0
      · rw [if_neg ht]
        simp only [mul_zero, Real.sin_zero, Real.cos_zero, zero_div, sub_zero]
        obtain ⟨w, x, y, z⟩ := q0
        simp [alg.Quat.mulScalar, alg.Quat.add]
    · simp only [if_neg hd]
      by_cases ht : alg.quat_dot q0 q1 > 0.9995
      · rw [if_pos ht, alg.Quat.lerp_self_add]
        exact alg.Quat.normalize_of_magnitude_one _ h0
      · rw [if_neg ht]
        simp only [mul_zero, Real.sin_zero, Real.cos_zero, zero_div, sub_zero]
        obtain ⟨w, x, y, z⟩ := q0
        simp [alg.Quat.mulScalar, alg.Quat.add]
  · have hd : ¬ alg.quat_dot q0 q1 < 0 := not_lt.mpr hdot
    simp only [alg.slerp, if_neg hd]
    by_cases ht : alg.quat_dot q0 q1 > 0.9995
    · rw [if_pos ht, alg.Quat.lerp_one_add]
      exact alg.Quat.normalize_of_magnitude_one _ h1
    · rw [if_neg ht]
      have hle : alg.quat_dot q0 q1 ≤ 0.9995 := not_lt.mp ht
      have hlt1 : alg.quat_dot q0 q1 < 1 := lt_of_le_of_lt hle (by norm_num)
      have hth : 0 < Real.arccos (alg.quat_dot q0 q1) := Real.arccos_pos.mpr hlt1
      have hthpi : Real.arccos (alg.quat_dot q0 q1) < Real.pi :=
        lt_of_le_of_lt (Real.arccos_le_pi_div_two.mpr hdot) (by linarith [Real.pi_pos])
      have hsin : Real.sin (Real.arccos (alg.quat_dot q0 q1)) ≠ 0 :=
        (Real.sin_pos_of_pos_of_lt_pi hth hthpi).ne'
      have hcos : Real.cos (Real.arccos (alg.quat_dot q0 q1)) = alg.quat_dot q0 q1 :=
        Real.cos_arccos (by linarith) (by linarith)
      simp only [mul_one, hcos]
      rw [mul_div_assoc, div_self hsin, mul_one, sub_self]
      obtain ⟨w, x, y, z⟩ := q1
      simp [alg.Quat.mulScalar, alg.Quat.add]
  · have hdq : alg.quat_dot q q = 1 := by
      unfold alg.quat_dot
      exact q.sum_sq_eq_one hq
    simp only [alg.slerp, hdq]
    norm_num
    rw [alg.Quat.lerp_same_add]
    exact alg.Quat.normalize_of_magnitude_one _ hq

/-- Witness for C2 (amended) at q0 = (1,0,0,0), q1 = (0,1,0,0) (dot product
0) and q = (0.6, 0.8, 0, 0). -/
theorem slerp_endpoints_amended_witness :
    alg.slerp ⟨1, 0, 0, 0⟩ ⟨0, 1, 0, 0⟩ 0 = ⟨1, 0, 0, 0⟩ ∧
    alg.slerp ⟨1, 0, 0, 0⟩ ⟨0, 1, 0, 0⟩ 1 = ⟨0, 1, 0, 0⟩ ∧
    alg.slerp ⟨0.6, 0.8, 0, 0⟩ ⟨0.6, 0.8, 0, 0⟩ 0.5 = ⟨0.6, 0.8, 0, 0⟩ := by
  obtain ⟨a, b, c⟩ := slerp_endpoints_amended ⟨1, 0, 0, 0⟩ ⟨0, 1, 0, 0⟩ ⟨0.6, 0.8, 0, 0⟩
    mag_quat_1000 mag_quat_0100 mag_quat_68
  exact ⟨a, b (by norm_num [alg.quat_dot]), c⟩
